import Mathlib

/-!
Verification of the crawl-and-analyze engine of `SiteAuditorImproved`
(`src/seo_agent/core/site_auditor_improved.py`).

The Python class is embedded shallowly:

* The external world (HTTP responses, the `urllib.parse` / `urljoin`
  standard-library helpers and the HTML parser) is a parameter `Env`:
  `Env.fetch url` is the outcome of `self.session.get(url, ...)` together
  with the parse of the body, and `Env.urljoin`, `Env.netloc`,
  `Env.scheme`, `Env.path`, `Env.query` stand for `urllib.parse.urljoin`
  and the fields of `urllib.parse.urlparse`.  All theorems hold for every
  environment, i.e. for every possible behaviour of those collaborators.
* Mutable instance state (`visited_urls`, `found_urls`, `all_pages`,
  `errors`, `results`) becomes an explicit `CrawlState` threaded through
  the loop; Python `set`s become duplicate-free lists (insertion is a
  no-op on an element that is already present, exactly like `set.add`).
* Python exceptions become constructors of `FetchResult` /
  `Except String`: `requests.RequestException` raised by `session.get`
  is `FetchResult.requestError` (caught inside `_fetch_and_analyze_page`),
  any other exception escaping `_fetch_and_analyze_page` is
  `FetchResult.otherError` (caught by the `except Exception` handler in
  `_crawl`).
* Machine integers are `Int` (Python ints are unbounded), wall-clock load
  times are `ℚ`.
-/

namespace SiteAudit

/-- An `<img>` element as seen by the auditor: its `src` and `alt`
attributes, with a missing attribute reported as `""` exactly like
`img.get("src", "")` / `img.get("alt", "")`. -/
structure Img where
  src : String
  alt : String
deriving DecidableEq

/-- The parse of an HTML body, holding exactly the queries
`SiteAuditorImproved` makes against BeautifulSoup: the raw text of the
`<title>` tag (`none` when the tag is absent), the `content` attribute of
`<meta name="description">` (`none` when the tag is absent, `some ""` when
the tag has no `content` attribute), the raw texts of the `<h1>` and
`<h2>` tags in document order, the `<img>` elements, and the `href`
attributes of the `<a href=...>` anchors in document order. -/
structure Soup where
  title : Option String
  metaDescription : Option String
  h1 : List String
  h2 : List String
  imgs : List Img
  hrefs : List String
deriving DecidableEq

/-- A `requests` response as consumed by `_fetch_and_analyze_page`:
`history` is the list of status codes of the redirect hops (empty when no
redirect occurred), `url` is the final post-redirect URL, `contentLen` is
`len(response.content)` (the raw body size in bytes), `textLen` is
`len(response.text)` (the decoded body size in characters — the quantity
the source actually inspects for the page-size rule), and `soup` is the
parse of `response.text`. -/
structure Response where
  history : List Int
  statusCode : Int
  url : String
  contentType : String
  contentLen : Nat
  textLen : Nat
  soup : Soup
deriving DecidableEq

/-- The outcome of `self.session.get(url, timeout=..., allow_redirects=True)`
together with the subsequent pure processing: `success` carries the
response and the measured load time, `requestError` is a raised
`requests.RequestException`, and `otherError` is any other exception
raised inside `_fetch_and_analyze_page` (it escapes that method and is
caught by the `except Exception` handler of `_crawl`). -/
inductive FetchResult where
  | success (resp : Response) (loadTime : ℚ)
  | requestError (msg : String)
  | otherError (msg : String)
deriving DecidableEq

/-- The external collaborators of the auditor: the network and the
`urllib.parse` helpers.  `netloc`, `scheme`, `path`, `query` are the
respective fields of `urlparse`, and `urljoin` resolves an href against a
base URL. -/
structure Env where
  fetch : String → FetchResult
  urljoin : String → String → String
  netloc : String → String
  scheme : String → String
  path : String → String
  query : String → String

/-- The configuration values `audit.max_pages` (the ceiling, default 50)
and `audit.skip_query_urls` (default false) consumed by the crawl; the
`config.get(...).get(..., default)` chains collapse into field defaults. -/
structure Config where
  maxPagesCeiling : Int := 50
  skipQueryUrls : Bool := false

/-- One SEO issue as produced by `_analyze_page_issues`: the `type`,
`severity` and `message` dictionary entries. -/
structure Issue where
  type : String
  severity : String
  message : String
deriving DecidableEq

/-- An issue merged into the audit-global `results["issues"]` list: a copy
of the per-page issue tagged with the page's URL. -/
structure GlobalIssue where
  type : String
  severity : String
  message : String
  url : String
deriving DecidableEq

/-- One entry of `_get_images`'s output: `src`, `alt` and the computed
`has_alt = bool(alt and alt.strip())`. -/
structure ImageData where
  src : String
  alt : String
  hasAlt : Bool
deriving DecidableEq

/-- The page dictionary built by `_fetch_and_analyze_page` for a page
whose final status is 200. -/
structure PageData where
  url : String
  finalUrl : String
  statusCode : Int
  loadTime : ℚ
  contentType : String
  title : Option String
  metaDescription : Option String
  h1 : List String
  h2 : List String
  images : List ImageData
  links : List String
  issues : List Issue
deriving DecidableEq

/-- One entry of `results["redirects"]`. -/
structure Redirect where
  fromUrl : String
  toUrl : String
  statusCode : Int
deriving DecidableEq

/-- One entry of `results["broken_links"]`: either
`{"url": url, "status_code": code}` (non-200 response) or
`{"url": url, "error": msg}` (raised `requests.RequestException`). -/
inductive BrokenLink where
  | status (url : String) (statusCode : Int)
  | error (url : String) (msg : String)
deriving DecidableEq

/-- One `{"type": ..., "message": ...}` dictionary stored in
`self.errors[url]` by the `except Exception` handler of `_crawl`. -/
structure ErrorEntry where
  type : String
  message : String
deriving DecidableEq

/-- The mutable parts of `self.results` written during the crawl. -/
structure Results where
  issues : List GlobalIssue
  redirects : List Redirect
  brokenLinks : List BrokenLink
  pageSpeeds : List (String × ℚ)
deriving DecidableEq

/-- The crawl state: `visited_urls`, `found_urls` (the frontier),
`all_pages`, `errors` and the in-progress `results`.  The two URL sets are
duplicate-free lists. -/
structure CrawlState where
  visited : List String
  frontier : List String
  allPages : List PageData
  errors : List (String × List ErrorEntry)
  results : Results
deriving DecidableEq

/-- Python `str.strip()` over code points: drop whitespace from both
ends.  (Implemented on the character list so that concrete instances
reduce inside the kernel; `String.trim` is the same function but is
compiled in a way the kernel cannot evaluate.) -/
def pyStrip (s : String) : String :=
  ⟨((s.data.dropWhile Char.isWhitespace).reverse.dropWhile Char.isWhitespace).reverse⟩

/-- Python `str.startswith` over code points. -/
def pyStartsWith (s pre : String) : Bool :=
  pre.data.isPrefixOf s.data

/-- Python `str.endswith` over code points. -/
def pyEndsWith (s suf : String) : Bool :=
  suf.data.isSuffixOf s.data

/-- Python `str.lower` over code points (ASCII case folding). -/
def pyLower (s : String) : String :=
  ⟨s.data.map Char.toLower⟩

/-- Embeds `_get_title`: the trimmed text of the `<title>` tag, `None`
when absent. -/
def getTitle (s : Soup) : Option String :=
  s.title.map pyStrip

/-- Embeds `_get_meta_description`: the trimmed `content` attribute of
`<meta name="description">`, `None` when the tag is absent. -/
def getMetaDescription (s : Soup) : Option String :=
  s.metaDescription.map pyStrip

/-- Embeds `_get_headings`: the trimmed texts of the headings of the
requested type. -/
def getHeadings (s : Soup) (headingType : String) : List String :=
  if headingType = "h1" then s.h1.map pyStrip
  else if headingType = "h2" then s.h2.map pyStrip
  else []

/-- Embeds `_get_images`: every `<img>` with a non-empty `src`, with
`has_alt = bool(alt and alt.strip())`. -/
def getImages (s : Soup) : List ImageData :=
  s.imgs.filterMap fun im =>
    if im.src ≠ "" then
      some { src := im.src, alt := im.alt, hasAlt := im.alt != "" && pyStrip im.alt != "" }
    else none

/-- Embeds `_get_links`: each href is trimmed; empty, `javascript:`, `#`,
`mailto:` and `tel:` hrefs are skipped; the rest are resolved against the
page URL with `urljoin` and kept only when the resolved URL's netloc
equals the page URL's netloc. -/
def getLinks (env : Env) (s : Soup) (baseUrl : String) : List String :=
  let baseDomain := env.netloc baseUrl
  s.hrefs.filterMap fun hrefAttr =>
    let href := pyStrip hrefAttr
    if href = "" ∨ pyStartsWith href "javascript:" ∨ pyStartsWith href "#" ∨
        pyStartsWith href "mailto:" ∨ pyStartsWith href "tel:" then none
    else
      let absoluteUrl := env.urljoin baseUrl href
      if env.netloc absoluteUrl = baseDomain then some absoluteUrl else none

/-- The title block of `_analyze_page_issues`: `not title` (absent or
empty after trimming) flags `missing_title`, otherwise a length below 10
flags `short_title` and a length above 70 flags `long_title`. -/
def titleIssues (s : Soup) : List Issue :=
  match getTitle s with
  | none => [⟨"missing_title", "high", "Page is missing a title tag"⟩]
  | some title =>
    if title = "" then [⟨"missing_title", "high", "Page is missing a title tag"⟩]
    else if title.length < 10 then
      [⟨"short_title", "medium",
        "Title is too short (" ++ toString title.length ++ " characters)"⟩]
    else if title.length > 70 then
      [⟨"long_title", "medium",
        "Title is too long (" ++ toString title.length ++ " characters)"⟩]
    else []

/-- The meta-description block of `_analyze_page_issues` with the 50/160
boundaries. -/
def metaDescriptionIssues (s : Soup) : List Issue :=
  match getMetaDescription s with
  | none => [⟨"missing_meta_description", "medium", "Page is missing a meta description"⟩]
  | some meta =>
    if meta = "" then
      [⟨"missing_meta_description", "medium", "Page is missing a meta description"⟩]
    else if meta.length < 50 then
      [⟨"short_meta_description", "low",
        "Meta description is too short (" ++ toString meta.length ++ " characters)"⟩]
    else if meta.length > 160 then
      [⟨"long_meta_description", "low",
        "Meta description is too long (" ++ toString meta.length ++ " characters)"⟩]
    else []

/-- The H1 block of `_analyze_page_issues`. -/
def h1Issues (s : Soup) : List Issue :=
  let h1Tags := getHeadings s "h1"
  if h1Tags = [] then
    [⟨"missing_h1", "medium", "Page is missing an H1 heading"⟩]
  else if h1Tags.length > 1 then
    [⟨"multiple_h1", "low",
      "Page has multiple H1 headings (" ++ toString h1Tags.length ++ ")"⟩]
  else []

/-- The image block of `_analyze_page_issues` (the Python dict's extra
`details` entry, a debug string, is not modelled). -/
def imageIssues (s : Soup) : List Issue :=
  let images := getImages s
  let missingAlt := images.filter fun im => !im.hasAlt
  if missingAlt ≠ [] then
    [⟨"images_missing_alt", "medium",
      toString missingAlt.length ++ " of " ++ toString images.length ++
        " images missing alt text"⟩]
  else []

/-- The page-size block of `_analyze_page_issues`: the source checks
`len(response.text)`, the decoded character count, against `1024 * 1024`. -/
def pageSizeIssues (resp : Response) : List Issue :=
  if resp.textLen > 1024 * 1024 then
    [⟨"large_page_size", "medium",
      "Page size is large: " ++ toString (resp.textLen / 1024) ++ " KB"⟩]
  else []

/-- Embeds `_analyze_page_issues`: the five rule blocks evaluated in
source order.  (The source also appends each issue, tagged with the page
URL, to `results["issues"]`; that side effect is performed by
`fetchAndAnalyzePage` below.) -/
def analyzePageIssues (s : Soup) (resp : Response) : List Issue :=
  titleIssues s ++ metaDescriptionIssues s ++ h1Issues s ++ imageIssues s ++
    pageSizeIssues resp

/-- Embeds `_should_crawl`: scheme must be http/https, the lower-cased
path must not end in a skipped extension, and query-bearing URLs are
skipped when `skip_query_urls` is set. -/
def shouldCrawl (env : Env) (cfg : Config) (url : String) : Bool :=
  if env.scheme url ≠ "http" ∧ env.scheme url ≠ "https" then false
  else if [".pdf", ".jpg", ".jpeg", ".png", ".gif", ".css", ".js"].any
      (fun ext => pyEndsWith (pyLower (env.path url)) ext) then false
  else if cfg.skipQueryUrls ∧ env.query url ≠ "" then false
  else true

/-- The page dictionary assembled by `_fetch_and_analyze_page` for a
200 response. -/
def buildPageData (env : Env) (url : String) (resp : Response) (loadTime : ℚ) : PageData :=
  { url := url
    finalUrl := resp.url
    statusCode := resp.statusCode
    loadTime := loadTime
    contentType := resp.contentType
    title := getTitle resp.soup
    metaDescription := getMetaDescription resp.soup
    h1 := getHeadings resp.soup "h1"
    h2 := getHeadings resp.soup "h2"
    images := getImages resp.soup
    links := getLinks env resp.soup url
    issues := analyzePageIssues resp.soup resp }

/-- Embeds `_fetch_and_analyze_page`.  A raised
`requests.RequestException` is caught there and recorded into
`broken_links`; any other exception propagates to the caller
(`Except.error`).  On a response: a non-empty redirect history appends
one `redirects` entry for the first hop; a non-200 final status appends a
`broken_links` entry and yields no page; otherwise the page dictionary is
built, its issues are merged (tagged with the URL) into the global issue
list and its load time recorded into `page_speeds`. -/
def fetchAndAnalyzePage (env : Env) (r : Results) (url : String) :
    Except String (Results × Option PageData) :=
  match env.fetch url with
  | .otherError msg => .error msg
  | .requestError msg =>
      .ok ({ r with brokenLinks := r.brokenLinks ++ [.error url msg] }, none)
  | .success resp loadTime =>
      let r1 :=
        if resp.history.length > 0 then
          { r with redirects :=
              r.redirects ++ [⟨url, resp.url, resp.history.headD 0⟩] }
        else r
      if resp.statusCode ≠ 200 then
        .ok ({ r1 with brokenLinks :=
                r1.brokenLinks ++ [.status url resp.statusCode] }, none)
      else
        let pd := buildPageData env url resp loadTime
        .ok ({ r1 with
                issues := r1.issues ++
                  pd.issues.map (fun i => ⟨i.type, i.severity, i.message, url⟩),
                pageSpeeds := r1.pageSpeeds ++ [(url, loadTime)] },
              some pd)

/-- Python `set.add` on a set represented as a duplicate-free list: a
no-op when the element is already present. -/
def insertSet (fr : List String) (u : String) : List String :=
  if u ∈ fr then fr else fr ++ [u]

/-- The link-offering loop of `_crawl`: each discovered link is added to
the frontier iff it is not in `visited` and passes `_should_crawl`. -/
def offerLinks (env : Env) (cfg : Config) (visited : List String)
    (fr : List String) (links : List String) : List String :=
  links.foldl
    (fun acc link =>
      if link ∉ visited ∧ shouldCrawl env cfg link then insertSet acc link
      else acc)
    fr

/-- One loop-body iteration of `_crawl` for a popped URL that is not yet
visited: the URL is marked visited, fetched and analyzed; a propagated
exception is recorded under `errors[url]` as a `crawl_error`; a page
yields an `all_pages` entry and its links are offered to the frontier. -/
def processUrl (env : Env) (cfg : Config) (st : CrawlState) (url : String)
    (rest : List String) : CrawlState :=
  let visited1 := st.visited ++ [url]
  match fetchAndAnalyzePage env st.results url with
  | .error msg =>
      { st with
        visited := visited1
        frontier := rest
        errors := st.errors ++ [(url, [⟨"crawl_error", msg⟩])] }
  | .ok (r, none) =>
      { st with visited := visited1, frontier := rest, results := r }
  | .ok (r, some pd) =>
      { st with
        visited := visited1
        frontier := offerLinks env cfg visited1 rest pd.links
        allPages := st.allPages ++ [pd]
        results := r }

/-- Embeds the `while` loop of `_crawl`: run while the frontier is
non-empty and fewer than `b` (the clamped page budget) URLs are visited;
pop the head of the frontier, skip it if already visited, otherwise
process it. -/
def crawlLoop (env : Env) (cfg : Config) (b : Int) (st : CrawlState) : CrawlState :=
  match hf : st.frontier with
  | [] => st
  | url :: rest =>
    if hb : (st.visited.length : Int) < b then
      if url ∈ st.visited then
        crawlLoop env cfg b { st with frontier := rest }
      else
        crawlLoop env cfg b (processUrl env cfg st url rest)
    else st
termination_by (b.toNat - st.visited.length, st.frontier.length)
decreasing_by
  · apply Prod.Lex.right
    simp [hf]
  · apply Prod.Lex.left
    have hv : (processUrl env cfg st url rest).visited = st.visited ++ [url] := by
      unfold processUrl
      rcases h : fetchAndAnalyzePage env st.results url with msg | ⟨r, _ | pd⟩ <;> rfl
    rw [hv]
    simp only [List.length_append, List.length_singleton]
    omega

/-- The `results["summary"]` dictionary computed by `_analyze_results`.
The two count dictionaries are modelled by their lookup functions. -/
structure SummaryStats where
  totalPages : Nat
  totalIssues : Nat
  issueCounts : String → Nat
  brokenLinksCount : Nat
  redirectsCount : Nat
  averagePageSpeed : ℚ
  severityCounts : String → Nat

/-- Embeds `_analyze_results`: per-type and per-severity issue counts and
`average_page_speed = sum(page_speeds.values()) / max(1, len(page_speeds))`. -/
def analyzeResults (st : CrawlState) : SummaryStats :=
  { totalPages := st.visited.length
    totalIssues := st.results.issues.length
    issueCounts := fun ty => (st.results.issues.filter fun i => i.type = ty).length
    brokenLinksCount := st.results.brokenLinks.length
    redirectsCount := st.results.redirects.length
    averagePageSpeed :=
      (st.results.pageSpeeds.map Prod.snd).sum /
        ((max 1 st.results.pageSpeeds.length : ℕ) : ℚ)
    severityCounts := fun sev =>
      (st.results.issues.filter fun i => i.severity = sev).length }

/-- One entry of `results["recommendations"]`. -/
structure Recommendation where
  type : String
  priority : String
  message : String
deriving DecidableEq

/-- Embeds `_generate_recommendations`: one recommendation per category,
appended when any matching issue exists in the global issue list (or, for
the last two categories, when any broken link was recorded / the average
page speed exceeds 3 seconds). -/
def generateRecommendations (issues : List GlobalIssue)
    (brokenLinks : List BrokenLink) (averagePageSpeed : ℚ) :
    List Recommendation :=
  (if issues.any fun i =>
      ["missing_title", "short_title", "long_title"].contains i.type then
    [⟨"title_optimization", "high",
      "Optimize page titles to be between 10-70 characters and include relevant keywords."⟩]
  else []) ++
  (if issues.any fun i =>
      ["missing_meta_description", "short_meta_description",
        "long_meta_description"].contains i.type then
    [⟨"meta_description_optimization", "high",
      "Add or optimize meta descriptions to be between 50-160 characters and entice clicks."⟩]
  else []) ++
  (if issues.any fun i => ["missing_h1", "multiple_h1"].contains i.type then
    [⟨"heading_structure", "medium",
      "Ensure each page has exactly one H1 tag that clearly describes the page content."⟩]
  else []) ++
  (if issues.any fun i => i.type == "images_missing_alt" then
    [⟨"image_optimization", "medium",
      "Add descriptive alt text to all images to improve accessibility and SEO."⟩]
  else []) ++
  (if brokenLinks ≠ [] then
    [⟨"fix_broken_links", "high",
      "Fix " ++ toString brokenLinks.length ++ " broken links found during the audit."⟩]
  else []) ++
  (if averagePageSpeed > 3 then
    [⟨"improve_page_speed", "high",
      "Improve page load speed, currently averaging " ++
        toString averagePageSpeed ++ " seconds."⟩]
  else [])

/-- The dictionary returned by `audit_site`. -/
structure AuditResult where
  domain : String
  startUrl : String
  pagesAnalyzed : Nat
  issues : List GlobalIssue
  redirects : List Redirect
  brokenLinks : List BrokenLink
  pageSpeeds : List (String × ℚ)
  recommendations : List Recommendation
  summary : SummaryStats

/-- The scheme normalization at the top of `audit_site`: prepend
`https://` when the domain starts with neither `http://` nor `https://`. -/
def normalizeDomain (domain : String) : String :=
  if pyStartsWith domain "http://" ∨ pyStartsWith domain "https://" then domain
  else "https://" ++ domain

/-- The page budget used by the loop:
`min(max_pages, config["audit"]["max_pages"])`. -/
def clampedBudget (cfg : Config) (maxPages : Int) : Int :=
  min maxPages cfg.maxPagesCeiling

/-- The crawl state at the start of `_crawl` on a fresh auditor instance:
empty sets and result lists, the frontier seeded with the start URL. -/
def initState (startUrl : String) : CrawlState :=
  { visited := []
    frontier := [startUrl]
    allPages := []
    errors := []
    results := { issues := [], redirects := [], brokenLinks := [], pageSpeeds := [] } }

/-- Embeds `audit_site` on a fresh auditor instance: normalize the
domain, clamp the budget, crawl, summarize, generate recommendations and
assemble the result (the returned `pages_analyzed` is `len(visited)` as
set at the end of `_crawl`). -/
def auditSite (env : Env) (cfg : Config) (domain : String) (maxPages : Int) :
    AuditResult :=
  let domain1 := normalizeDomain domain
  let stF := crawlLoop env cfg (clampedBudget cfg maxPages) (initState domain1)
  let summary := analyzeResults stF
  { domain := env.netloc domain1
    startUrl := domain1
    pagesAnalyzed := stF.visited.length
    issues := stF.results.issues
    redirects := stF.results.redirects
    brokenLinks := stF.results.brokenLinks
    pageSpeeds := stF.results.pageSpeeds
    recommendations :=
      generateRecommendations stF.results.issues stF.results.brokenLinks
        summary.averagePageSpeed
    summary := summary }

/-- One transition of the `while` loop of `_crawl`, as a relation on
crawl states: pop the head of the frontier while the budget allows it,
and either skip it (already visited — the defensive `continue`) or
process it. -/
inductive CrawlStep (env : Env) (cfg : Config) (b : Int) :
    CrawlState → CrawlState → Prop where
  | skip (st : CrawlState) (url : String) (rest : List String)
      (hf : st.frontier = url :: rest) (hb : (st.visited.length : Int) < b)
      (hv : url ∈ st.visited) :
      CrawlStep env cfg b st { st with frontier := rest }
  | visit (st : CrawlState) (url : String) (rest : List String)
      (hf : st.frontier = url :: rest) (hb : (st.visited.length : Int) < b)
      (hv : url ∉ st.visited) :
      CrawlStep env cfg b st (processUrl env cfg st url rest)

/-- The states the crawl loop passes through: the reflexive-transitive
closure of `CrawlStep`. -/
def Reaches (env : Env) (cfg : Config) (b : Int) :
    CrawlState → CrawlState → Prop :=
  Relation.ReflTransGen (CrawlStep env cfg b)

/-- The structural invariant of the crawl state: both URL sets are
duplicate-free and no URL is in `visited` and the frontier at once. -/
def StateInv (st : CrawlState) : Prop :=
  st.visited.Nodup ∧ st.frontier.Nodup ∧ ∀ u ∈ st.visited, u ∉ st.frontier

/-- The same-host invariant: every URL in `visited`, in the frontier and
in any collected page's `links` list has the start URL's netloc. -/
def HostInv (env : Env) (startUrl : String) (st : CrawlState) : Prop :=
  (∀ u ∈ st.visited, env.netloc u = env.netloc startUrl) ∧
  (∀ u ∈ st.frontier, env.netloc u = env.netloc startUrl) ∧
  (∀ pd ∈ st.allPages, ∀ u ∈ pd.links, env.netloc u = env.netloc startUrl)

/-- A soup with no content at all. -/
def emptySoup : Soup :=
  { title := none, metaDescription := none, h1 := [], h2 := [], imgs := [], hrefs := [] }

/-- The empty `results` dictionary as set up at the start of `audit_site`. -/
def emptyResults : Results :=
  { issues := [], redirects := [], brokenLinks := [], pageSpeeds := [] }

/-- A toy environment for concrete witnesses: every fetch raises a
`requests.RequestException`, and the URL helpers are crude but
kernel-computable stand-ins. -/
def env0 : Env :=
  { fetch := fun _ => .requestError "connection refused"
    urljoin := fun _ href => href
    netloc := fun u => ⟨(u.data.drop 8).takeWhile (fun c => c ≠ '/')⟩
    scheme := fun u =>
      if pyStartsWith u "https://" then "https"
      else if pyStartsWith u "http://" then "http" else ""
    path := fun _ => ""
    query := fun _ => "" }

/-- The default configuration (ceiling 50, keep query URLs). -/
def cfg0 : Config := {}

/-- A 404 response used as a concrete witness input. -/
def resp404 : Response :=
  { history := [], statusCode := 404, url := "https://example.com/missing"
    contentType := "text/html", contentLen := 0, textLen := 0, soup := emptySoup }

/-- An environment in which every fetch returns the 404 response. -/
def env404 : Env := { env0 with fetch := fun _ => .success resp404 (1 : ℚ) }

/-- A response that arrives after one 301 redirect hop. -/
def respRedirect : Response :=
  { history := [301], statusCode := 200, url := "https://example.com/new"
    contentType := "text/html", contentLen := 10, textLen := 10, soup := emptySoup }

/-- A 404 response that arrives after one 302 redirect hop. -/
def respRedirect404 : Response :=
  { history := [302], statusCode := 404, url := "https://example.com/gone"
    contentType := "text/html", contentLen := 0, textLen := 0, soup := emptySoup }

/-- Counts the issues of a given type in a list. -/
def countIssues (issues : List Issue) (ty : String) : Nat :=
  (issues.filter fun i => i.type = ty).length

/-- A page with the given raw title and meta description, one H1 and
nothing else, used for the boundary witnesses. -/
def soupTitleMeta (t d : String) : Soup :=
  { title := some t, metaDescription := some d, h1 := ["Heading"], h2 := []
    imgs := [], hrefs := [] }

/-- A plain 200 response delivering the given soup. -/
def respFor (s : Soup) : Response :=
  { history := [], statusCode := 200, url := "", contentType := ""
    contentLen := 0, textLen := 0, soup := s }

/-- A response whose raw body is over 1 MiB of UTF-8 bytes but whose
decoded text is only 500000 characters. -/
def respBigRaw : Response :=
  { history := [], statusCode := 200, url := "", contentType := ""
    contentLen := 1500000, textLen := 500000, soup := emptySoup }

/-- Counts the recommendations of a given type in a list. -/
def countRecs (recs : List Recommendation) (ty : String) : Nat :=
  (recs.filter fun rec => rec.type = ty).length

/-- A page at the site root carrying one relative link. -/
def soupWithLink : Soup :=
  { title := some "A Reasonable Title", metaDescription := none
    h1 := ["Welcome"], h2 := [], imgs := [], hrefs := ["/about"] }

/-- The 200 response for `soupWithLink`. -/
def respLink : Response :=
  { history := [], statusCode := 200, url := "https://example.com"
    contentType := "text/html", contentLen := 100, textLen := 100
    soup := soupWithLink }

/-- An environment whose fetches return `respLink` and whose `urljoin`
resolves root-relative hrefs against `https://example.com`. -/
def envLink : Env :=
  { env0 with
    fetch := fun _ => .success respLink 1
    urljoin := fun _ href =>
      if pyStartsWith href "/" then "https://example.com" ++ href else href }

theorem processUrl_visited (env : Env) (cfg : Config) (st : CrawlState)
    (url : String) (rest : List String) :
    (processUrl env cfg st url rest).visited = st.visited ++ [url] := by
  unfold processUrl
  rcases h : fetchAndAnalyzePage env st.results url with msg | ⟨r, _ | pd⟩ <;>
    rfl

theorem crawlLoop_frontier_nil (env : Env) (cfg : Config) (b : Int)
    (st : CrawlState) (h : st.frontier = []) :
    crawlLoop env cfg b st = st := by
  conv_lhs => unfold crawlLoop
  split
  · rfl
  · rename_i url rest hf
    rw [h] at hf
    exact absurd hf (by simp)

theorem crawlLoop_frontier_cons (env : Env) (cfg : Config) (b : Int)
    (st : CrawlState) (url : String) (rest : List String)
    (h : st.frontier = url :: rest) :
    crawlLoop env cfg b st =
      if (st.visited.length : Int) < b then
        if url ∈ st.visited then
          crawlLoop env cfg b { st with frontier := rest }
        else
          crawlLoop env cfg b (processUrl env cfg st url rest)
      else st := by
  conv_lhs => unfold crawlLoop
  split
  · rename_i hf
    rw [h] at hf
    exact absurd hf (by simp)
  · rename_i url2 rest2 hf
    rw [h] at hf
    obtain ⟨rfl, rfl⟩ : url2 = url ∧ rest2 = rest := by
      constructor <;> cases hf <;> rfl
    split
    · rfl
    · rfl

theorem mem_insertSet (fr : List String) (u v : String) :
    v ∈ insertSet fr u ↔ v ∈ fr ∨ v = u := by
  unfold insertSet
  split
  · rename_i hu
    constructor
    · exact Or.inl
    · rintro (hv | rfl)
      · exact hv
      · exact hu
  · simp

theorem nodup_insertSet (fr : List String) (u : String) (h : fr.Nodup) :
    (insertSet fr u).Nodup := by
  unfold insertSet
  split
  · exact h
  · rename_i hu
    simpa [List.nodup_append] using ⟨h, hu⟩

theorem mem_offerLinks (env : Env) (cfg : Config) (visited : List String)
    (links : List String) (fr : List String) (v : String)
    (h : v ∈ offerLinks env cfg visited fr links) :
    v ∈ fr ∨ (v ∈ links ∧ v ∉ visited ∧ shouldCrawl env cfg v = true) := by
  induction links generalizing fr with
  | nil => exact Or.inl h
  | cons l ls ih =>
    rw [offerLinks, List.foldl_cons] at h
    rcases ih _ h with hfr | ⟨hl, hnv, hc⟩
    · split at hfr
      · rename_i hcond
        rcases (mem_insertSet _ _ _).mp hfr with hfr | rfl
        · exact Or.inl hfr
        · exact Or.inr ⟨List.mem_cons_self _ _, hcond.1, hcond.2⟩
      · exact Or.inl hfr
    · exact Or.inr ⟨List.mem_cons_of_mem _ hl, hnv, hc⟩

theorem nodup_offerLinks (env : Env) (cfg : Config) (visited : List String)
    (links : List String) (fr : List String) (h : fr.Nodup) :
    (offerLinks env cfg visited fr links).Nodup := by
  induction links generalizing fr with
  | nil => exact h
  | cons l ls ih =>
    rw [offerLinks, List.foldl_cons]
    apply ih
    split
    · exact nodup_insertSet _ _ h
    · exact h

theorem getLinks_netloc (env : Env) (s : Soup) (baseUrl : String)
    (u : String) (h : u ∈ getLinks env s baseUrl) :
    env.netloc u = env.netloc baseUrl := by
  unfold getLinks at h
  rcases List.mem_filterMap.mp h with ⟨href, _, hkeep⟩
  simp only at hkeep
  split at hkeep
  · exact absurd hkeep (by simp)
  · split at hkeep
    · rename_i heq
      cases hkeep
      exact heq
    · exact absurd hkeep (by simp)

theorem fetchAndAnalyzePage_links_netloc (env : Env) (r r' : Results)
    (url : String) (pd : PageData)
    (h : fetchAndAnalyzePage env r url = .ok (r', some pd)) :
    ∀ u ∈ pd.links, env.netloc u = env.netloc url := by
  unfold fetchAndAnalyzePage at h
  rcases hf : env.fetch url with ⟨resp, lt⟩ | msg | msg <;> rw [hf] at h
  · simp only at h
    split at h
    · exact absurd h (by simp)
    · obtain ⟨-, rfl⟩ : r' = _ ∧ buildPageData env url resp lt = pd := by
        cases h; exact ⟨rfl, rfl⟩
      intro u hu
      exact getLinks_netloc env resp.soup url u hu
  · exact absurd h (by simp)
  · exact absurd h (by simp)

theorem mem_processUrl_frontier (env : Env) (cfg : Config) (st : CrawlState)
    (url : String) (rest : List String) (v : String)
    (h : v ∈ (processUrl env cfg st url rest).frontier) :
    v ∈ rest ∨
      (v ∉ st.visited ++ [url] ∧ shouldCrawl env cfg v = true ∧
        env.netloc v = env.netloc url) := by
  unfold processUrl at h
  rcases hfa : fetchAndAnalyzePage env st.results url with msg | ⟨r, _ | pd⟩ <;>
      rw [hfa] at h
  · exact Or.inl h
  · exact Or.inl h
  · simp only at h
    rcases mem_offerLinks env cfg _ _ _ _ h with hr | ⟨hl, hnv, hc⟩
    · exact Or.inl hr
    · exact Or.inr ⟨hnv, hc,
        fetchAndAnalyzePage_links_netloc env st.results r url pd hfa v hl⟩

theorem nodup_processUrl_frontier (env : Env) (cfg : Config) (st : CrawlState)
    (url : String) (rest : List String) (h : rest.Nodup) :
    (processUrl env cfg st url rest).frontier.Nodup := by
  unfold processUrl
  rcases hfa : fetchAndAnalyzePage env st.results url with msg | ⟨r, _ | pd⟩
  · exact h
  · exact h
  · exact nodup_offerLinks env cfg _ _ _ h

theorem mem_processUrl_allPages (env : Env) (cfg : Config) (st : CrawlState)
    (url : String) (rest : List String) (pd' : PageData)
    (h : pd' ∈ (processUrl env cfg st url rest).allPages) :
    pd' ∈ st.allPages ∨ ∀ u ∈ pd'.links, env.netloc u = env.netloc url := by
  unfold processUrl at h
  rcases hfa : fetchAndAnalyzePage env st.results url with msg | ⟨r, _ | pd⟩ <;>
      rw [hfa] at h
  · exact Or.inl h
  · exact Or.inl h
  · simp only [List.mem_append, List.mem_singleton] at h
    rcases h with h | rfl
    · exact Or.inl h
    · exact Or.inr (fetchAndAnalyzePage_links_netloc env st.results r url pd' hfa)

theorem stateInv_init (startUrl : String) : StateInv (initState startUrl) := by
  refine ⟨List.nodup_nil, List.nodup_singleton _, ?_⟩
  intro u hu
  exact absurd hu (List.not_mem_nil u)

theorem stateInv_step (env : Env) (cfg : Config) (b : Int)
    (st st' : CrawlState) (h : CrawlStep env cfg b st st')
    (hi : StateInv st) : StateInv st' := by
  obtain ⟨hnv, hnf, hd⟩ := hi
  cases h with
  | skip url rest hf hb hv =>
    rw [hf] at hnf hd
    exact ⟨hnv, (List.nodup_cons.mp hnf).2,
      fun u hu => fun hr => hd u hu (List.mem_cons_of_mem _ hr)⟩
  | visit url rest hf hb hv =>
    rw [hf] at hnf hd
    obtain ⟨hur, hnr⟩ := List.nodup_cons.mp hnf
    refine ⟨?_, nodup_processUrl_frontier env cfg st url rest hnr, ?_⟩
    · rw [processUrl_visited]
      simpa [List.nodup_append] using ⟨hnv, hv⟩
    · intro u hu hfr
      rw [processUrl_visited] at hu
      rcases mem_processUrl_frontier env cfg st url rest u hfr with hr | ⟨hnm, -, -⟩
      · rcases List.mem_append.mp hu with hu | hu
        · exact hd u hu (List.mem_cons_of_mem _ hr)
        · rw [List.mem_singleton] at hu
          subst hu
          exact hur hr
      · exact hnm hu

theorem stateInv_reaches (env : Env) (cfg : Config) (b : Int)
    (startUrl : String) (st : CrawlState)
    (h : Reaches env cfg b (initState startUrl) st) : StateInv st := by
  induction h with
  | refl => exact stateInv_init startUrl
  | tail _ hstep ih => exact stateInv_step env cfg b _ _ hstep ih

theorem budget_step (env : Env) (cfg : Config) (b : Int) (st st' : CrawlState)
    (h : CrawlStep env cfg b st st') : (st'.visited.length : Int) ≤ b := by
  cases h with
  | skip url rest hf hb hv => exact le_of_lt hb
  | visit url rest hf hb hv =>
    rw [processUrl_visited]
    simp only [List.length_append, List.length_singleton]
    push_cast
    omega

theorem budget_reaches (env : Env) (cfg : Config) (b : Int) (hb : 0 ≤ b)
    (startUrl : String) (st : CrawlState)
    (h : Reaches env cfg b (initState startUrl) st) :
    (st.visited.length : Int) ≤ b := by
  induction h with
  | refl => simpa [initState] using hb
  | tail _ hstep _ => exact budget_step env cfg b _ _ hstep

theorem hostInv_init (env : Env) (startUrl : String) :
    HostInv env startUrl (initState startUrl) := by
  refine ⟨?_, ?_, ?_⟩ <;> simp [initState]

theorem hostInv_step (env : Env) (cfg : Config) (b : Int)
    (startUrl : String) (st st' : CrawlState)
    (h : CrawlStep env cfg b st st') (hi : HostInv env startUrl st) :
    HostInv env startUrl st' := by
  obtain ⟨hv, hf, hp⟩ := hi
  cases h with
  | skip url rest hfr hb hvis =>
    rw [hfr] at hf
    exact ⟨hv, fun u hu => hf u (List.mem_cons_of_mem _ hu), hp⟩
  | visit url rest hfr hb hvis =>
    rw [hfr] at hf
    have hurl : env.netloc url = env.netloc startUrl :=
      hf url (List.mem_cons_self _ _)
    refine ⟨?_, ?_, ?_⟩
    · rw [processUrl_visited]
      intro u hu
      rcases List.mem_append.mp hu with hu | hu
      · exact hv u hu
      · rw [List.mem_singleton] at hu
        subst hu
        exact hurl
    · intro u hu
      rcases mem_processUrl_frontier env cfg st url rest u hu with hr | ⟨-, -, hn⟩
      · exact hf u (List.mem_cons_of_mem _ hr)
      · rw [hn]
        exact hurl
    · intro pd hpd u hu
      rcases mem_processUrl_allPages env cfg st url rest pd hpd with hold | hnew
      · exact hp pd hold u hu
      · rw [hnew u hu]
        exact hurl

theorem hostInv_reaches (env : Env) (cfg : Config) (b : Int)
    (startUrl : String) (st : CrawlState)
    (h : Reaches env cfg b (initState startUrl) st) :
    HostInv env startUrl st := by
  induction h with
  | refl => exact hostInv_init env startUrl
  | tail _ hstep ih => exact hostInv_step env cfg b startUrl _ _ hstep ih

theorem crawlLoop_reaches (env : Env) (cfg : Config) (b : Int)
    (st : CrawlState) : Reaches env cfg b st (crawlLoop env cfg b st) := by
  rcases hfr : st.frontier with - | ⟨url, rest⟩
  · rw [crawlLoop_frontier_nil env cfg b st hfr]
    exact Relation.ReflTransGen.refl
  · rw [crawlLoop_frontier_cons env cfg b st url rest hfr]
    by_cases hb : (st.visited.length : Int) < b
    · rw [if_pos hb]
      by_cases hv : url ∈ st.visited
      · rw [if_pos hv]
        exact Relation.ReflTransGen.head
          (CrawlStep.skip st url rest hfr hb hv)
          (crawlLoop_reaches env cfg b { st with frontier := rest })
      · rw [if_neg hv]
        exact Relation.ReflTransGen.head
          (CrawlStep.visit st url rest hfr hb hv)
          (crawlLoop_reaches env cfg b (processUrl env cfg st url rest))
    · rw [if_neg hb]
      exact Relation.ReflTransGen.refl
termination_by (b.toNat - st.visited.length, st.frontier.length)
decreasing_by
  · apply Prod.Lex.right
    simp [hfr]
  · apply Prod.Lex.left
    rw [processUrl_visited]
    simp only [List.length_append, List.length_singleton]
    omega

theorem crawlLoop_stops (env : Env) (cfg : Config) (b : Int)
    (st : CrawlState) :
    (crawlLoop env cfg b st).frontier = [] ∨
      ¬ ((crawlLoop env cfg b st).visited.length : Int) < b := by
  rcases hfr : st.frontier with - | ⟨url, rest⟩
  · rw [crawlLoop_frontier_nil env cfg b st hfr]
    exact Or.inl hfr
  · rw [crawlLoop_frontier_cons env cfg b st url rest hfr]
    by_cases hb : (st.visited.length : Int) < b
    · rw [if_pos hb]
      by_cases hv : url ∈ st.visited
      · rw [if_pos hv]
        exact crawlLoop_stops env cfg b { st with frontier := rest }
      · rw [if_neg hv]
        exact crawlLoop_stops env cfg b (processUrl env cfg st url rest)
    · rw [if_neg hb]
      exact Or.inr hb
termination_by (b.toNat - st.visited.length, st.frontier.length)
decreasing_by
  · apply Prod.Lex.right
    simp [hfr]
  · apply Prod.Lex.left
    rw [processUrl_visited]
    simp only [List.length_append, List.length_singleton]
    omega

theorem crawlLoop_fixed (env : Env) (cfg : Config) (b : Int)
    (st : CrawlState)
    (h : st.frontier = [] ∨ (st.visited.length : Int) = b) :
    crawlLoop env cfg b st = st := by
  rcases hfr : st.frontier with - | ⟨url, rest⟩
  · exact crawlLoop_frontier_nil env cfg b st hfr
  · rcases h with h | h
    · rw [h] at hfr
      cases hfr
    · rw [crawlLoop_frontier_cons env cfg b st url rest hfr, h]
      simp

theorem fetchAndAnalyzePage_non200 (env : Env) (r : Results) (url : String)
    (resp : Response) (loadTime : ℚ)
    (hf : env.fetch url = .success resp loadTime)
    (h200 : resp.statusCode ≠ 200) :
    ∃ r', fetchAndAnalyzePage env r url = .ok (r', none) ∧
      r'.brokenLinks = r.brokenLinks ++ [.status url resp.statusCode] ∧
      r'.issues = r.issues := by
  unfold fetchAndAnalyzePage
  rw [hf]
  simp only
  rw [if_pos h200]
  by_cases hh : resp.history.length > 0
  · rw [if_pos hh]
    exact ⟨_, rfl, rfl, rfl⟩
  · rw [if_neg hh]
    exact ⟨_, rfl, rfl, rfl⟩

theorem fetchAndAnalyzePage_requestError (env : Env) (r : Results) (url : String)
    (msg : String) (hf : env.fetch url = .requestError msg) :
    fetchAndAnalyzePage env r url =
      .ok ({ r with brokenLinks := r.brokenLinks ++ [.error url msg] }, none) := by
  unfold fetchAndAnalyzePage
  rw [hf]

theorem processUrl_of_ok_none (env : Env) (cfg : Config) (st : CrawlState)
    (url : String) (rest : List String) (r' : Results)
    (h : fetchAndAnalyzePage env st.results url = .ok (r', none)) :
    processUrl env cfg st url rest =
      { st with visited := st.visited ++ [url], frontier := rest, results := r' } := by
  unfold processUrl
  rw [h]

/-- C4: a fetch ending in a non-200 status or a network error does not
raise to the crawl loop; the URL lands in `visited` and `broken_links`
(status code when available, otherwise the error text), contributes no
global issues, adds nothing to the frontier, and yields no page. -/
theorem claim_C4 (env : Env) (cfg : Config) (st : CrawlState) (url : String)
    (rest : List String) :
    (∀ resp loadTime, env.fetch url = .success resp loadTime →
      resp.statusCode ≠ 200 →
      (∃ r', fetchAndAnalyzePage env st.results url = .ok (r', none)) ∧
      url ∈ (processUrl env cfg st url rest).visited ∧
      (processUrl env cfg st url rest).results.brokenLinks =
        st.results.brokenLinks ++ [.status url resp.statusCode] ∧
      (processUrl env cfg st url rest).results.issues = st.results.issues ∧
      (processUrl env cfg st url rest).frontier = rest ∧
      (processUrl env cfg st url rest).allPages = st.allPages ∧
      (processUrl env cfg st url rest).errors = st.errors) ∧
    (∀ msg, env.fetch url = .requestError msg →
      (∃ r', fetchAndAnalyzePage env st.results url = .ok (r', none)) ∧
      url ∈ (processUrl env cfg st url rest).visited ∧
      (processUrl env cfg st url rest).results.brokenLinks =
        st.results.brokenLinks ++ [.error url msg] ∧
      (processUrl env cfg st url rest).results.issues = st.results.issues ∧
      (processUrl env cfg st url rest).frontier = rest ∧
      (processUrl env cfg st url rest).allPages = st.allPages ∧
      (processUrl env cfg st url rest).errors = st.errors) := by
  constructor
  · intro resp loadTime hf h200
    obtain ⟨r', hok, hbl, hiss⟩ :=
      fetchAndAnalyzePage_non200 env st.results url resp loadTime hf h200
    rw [processUrl_of_ok_none env cfg st url rest r' hok]
    refine ⟨⟨r', hok⟩, by simp, by rw [hbl], by rw [hiss], rfl, rfl, rfl⟩
  · intro msg hf
    have hok := fetchAndAnalyzePage_requestError env st.results url msg hf
    rw [processUrl_of_ok_none env cfg st url rest _ hok]
    exact ⟨⟨_, hok⟩, by simp, rfl, rfl, rfl, rfl, rfl⟩

theorem claim_C4_witness :
    (∃ r', fetchAndAnalyzePage env404
        (initState "https://example.com").results "https://example.com" =
      .ok (r', none)) ∧
    "https://example.com" ∈ (processUrl env404 cfg0 (initState "https://example.com")
        "https://example.com" []).visited ∧
    (processUrl env404 cfg0 (initState "https://example.com")
        "https://example.com" []).results.brokenLinks =
      (initState "https://example.com").results.brokenLinks ++
        [.status "https://example.com" resp404.statusCode] ∧
    (processUrl env404 cfg0 (initState "https://example.com")
        "https://example.com" []).results.issues =
      (initState "https://example.com").results.issues ∧
    (processUrl env404 cfg0 (initState "https://example.com")
        "https://example.com" []).frontier = [] ∧
    (processUrl env404 cfg0 (initState "https://example.com")
        "https://example.com" []).allPages =
      (initState "https://example.com").allPages ∧
    (processUrl env404 cfg0 (initState "https://example.com")
        "https://example.com" []).errors =
      (initState "https://example.com").errors :=
  (claim_C4 env404 cfg0 (initState "https://example.com") "https://example.com" []).1
    resp404 1 rfl (by decide)

/-- C5: an exception escaping `_fetch_and_analyze_page` is recorded as a
`crawl_error` entry for the URL, the URL stays visited, nothing else
changes, and the loop continues from the next frontier item. -/
theorem claim_C5 (env : Env) (cfg : Config) (st : CrawlState) (url : String)
    (rest : List String) (msg : String)
    (h : env.fetch url = .otherError msg) :
    (processUrl env cfg st url rest).errors =
      st.errors ++ [(url, [⟨"crawl_error", msg⟩])] ∧
    url ∈ (processUrl env cfg st url rest).visited ∧
    (processUrl env cfg st url rest).frontier = rest ∧
    (processUrl env cfg st url rest).results = st.results ∧
    (processUrl env cfg st url rest).allPages = st.allPages ∧
    (∀ b, st.frontier = url :: rest → (st.visited.length : Int) < b →
      url ∉ st.visited →
      crawlLoop env cfg b st =
        crawlLoop env cfg b (processUrl env cfg st url rest)) := by
  have herr : fetchAndAnalyzePage env st.results url = .error msg := by
    unfold fetchAndAnalyzePage
    rw [h]
  have hpu : processUrl env cfg st url rest =
      { st with
        visited := st.visited ++ [url]
        frontier := rest
        errors := st.errors ++ [(url, [⟨"crawl_error", msg⟩])] } := by
    unfold processUrl
    rw [herr]
  rw [hpu]
  refine ⟨rfl, by simp, rfl, rfl, rfl, ?_⟩
  intro b hfr hb hv
  rw [crawlLoop_frontier_cons env cfg b st url rest hfr, if_pos hb, if_neg hv, hpu]

theorem claim_C5_witness :
    (processUrl { env0 with fetch := fun _ => .otherError "boom" } cfg0
        (initState "https://example.com") "https://example.com" []).errors =
      (initState "https://example.com").errors ++
        [("https://example.com", [⟨"crawl_error", "boom"⟩])] ∧
    "https://example.com" ∈ (processUrl { env0 with fetch := fun _ => .otherError "boom" }
        cfg0 (initState "https://example.com") "https://example.com" []).visited ∧
    (processUrl { env0 with fetch := fun _ => .otherError "boom" } cfg0
        (initState "https://example.com") "https://example.com" []).frontier = [] ∧
    (processUrl { env0 with fetch := fun _ => .otherError "boom" } cfg0
        (initState "https://example.com") "https://example.com" []).results =
      (initState "https://example.com").results ∧
    (processUrl { env0 with fetch := fun _ => .otherError "boom" } cfg0
        (initState "https://example.com") "https://example.com" []).allPages =
      (initState "https://example.com").allPages ∧
    (∀ b, (initState "https://example.com").frontier = "https://example.com" :: [] →
      (((initState "https://example.com").visited.length : Int)) < b →
      "https://example.com" ∉ (initState "https://example.com").visited →
      crawlLoop { env0 with fetch := fun _ => .otherError "boom" } cfg0 b
          (initState "https://example.com") =
        crawlLoop { env0 with fetch := fun _ => .otherError "boom" } cfg0 b
          (processUrl { env0 with fetch := fun _ => .otherError "boom" } cfg0
            (initState "https://example.com") "https://example.com" [])) :=
  claim_C5 { env0 with fetch := fun _ => .otherError "boom" } cfg0
    (initState "https://example.com") "https://example.com" [] "boom" rfl

/-- C7: a 200 response with a non-empty redirect history appends exactly
one `redirects` entry, from the requested URL to the final URL, carrying
the first hop's status code. -/
theorem claim_C7 (env : Env) (r : Results) (url : String) (resp : Response)
    (loadTime : ℚ) (s0 : Int) (hops : List Int)
    (hf : env.fetch url = .success resp loadTime)
    (hh : resp.history = s0 :: hops) (h200 : resp.statusCode = 200) :
    ∃ r' pd, fetchAndAnalyzePage env r url = .ok (r', some pd) ∧
      r'.redirects = r.redirects ++ [⟨url, resp.url, s0⟩] := by
  unfold fetchAndAnalyzePage
  rw [hf]
  simp only
  rw [if_neg (by rw [h200]; exact fun hc => hc rfl)]
  rw [if_pos (by rw [hh]; simp)]
  exact ⟨_, _, rfl, by rw [hh]; rfl⟩

theorem claim_C7_witness :
    ∃ r' pd, fetchAndAnalyzePage { env0 with fetch := fun _ => .success respRedirect 1 }
        emptyResults "https://example.com/old" = .ok (r', some pd) ∧
      r'.redirects = emptyResults.redirects ++
        [⟨"https://example.com/old", "https://example.com/new", 301⟩] :=
  claim_C7 { env0 with fetch := fun _ => .success respRedirect 1 } emptyResults
    "https://example.com/old" respRedirect 1 301 [] rfl rfl rfl

/-- C10: a redirect history followed by a non-200 final status records
both the redirect entry and a `broken_links` entry with the final status,
and produces no page record. -/
theorem claim_C10 (env : Env) (r : Results) (url : String) (resp : Response)
    (loadTime : ℚ) (s0 : Int) (hops : List Int)
    (hf : env.fetch url = .success resp loadTime)
    (hh : resp.history = s0 :: hops) (h200 : resp.statusCode ≠ 200) :
    ∃ r', fetchAndAnalyzePage env r url = .ok (r', none) ∧
      r'.redirects = r.redirects ++ [⟨url, resp.url, s0⟩] ∧
      r'.brokenLinks = r.brokenLinks ++ [.status url resp.statusCode] := by
  unfold fetchAndAnalyzePage
  rw [hf]
  simp only
  rw [if_pos h200, if_pos (by rw [hh]; simp)]
  exact ⟨_, rfl, by rw [hh]; rfl, rfl⟩

theorem claim_C10_witness :
    ∃ r', fetchAndAnalyzePage { env0 with fetch := fun _ => .success respRedirect404 1 }
        emptyResults "https://example.com/old" = .ok (r', none) ∧
      r'.redirects = emptyResults.redirects ++
        [⟨"https://example.com/old", "https://example.com/gone", 302⟩] ∧
      r'.brokenLinks = emptyResults.brokenLinks ++
        [.status "https://example.com/old" respRedirect404.statusCode] :=
  claim_C10 { env0 with fetch := fun _ => .success respRedirect404 1 } emptyResults
    "https://example.com/old" respRedirect404 1 302 [] rfl rfl (by decide)

theorem countIssues_append (a b : List Issue) (ty : String) :
    countIssues (a ++ b) ty = countIssues a ty + countIssues b ty := by
  simp [countIssues, List.filter_append]

theorem titleIssues_of_none (s : Soup) (h : getTitle s = none) :
    titleIssues s = [⟨"missing_title", "high", "Page is missing a title tag"⟩] := by
  unfold titleIssues
  rw [h]

theorem titleIssues_of_some (s : Soup) (t : String) (h : getTitle s = some t) :
    titleIssues s =
      if t = "" then [⟨"missing_title", "high", "Page is missing a title tag"⟩]
      else if t.length < 10 then
        [⟨"short_title", "medium",
          "Title is too short (" ++ toString t.length ++ " characters)"⟩]
      else if t.length > 70 then
        [⟨"long_title", "medium",
          "Title is too long (" ++ toString t.length ++ " characters)"⟩]
      else [] := by
  unfold titleIssues
  rw [h]

theorem metaBlock_of_none (s : Soup) (h : getMetaDescription s = none) :
    metaDescriptionIssues s =
      [⟨"missing_meta_description", "medium", "Page is missing a meta description"⟩] := by
  unfold metaDescriptionIssues
  rw [h]

theorem metaBlock_of_some (s : Soup) (d : String) (h : getMetaDescription s = some d) :
    metaDescriptionIssues s =
      if d = "" then
        [⟨"missing_meta_description", "medium", "Page is missing a meta description"⟩]
      else if d.length < 50 then
        [⟨"short_meta_description", "low",
          "Meta description is too short (" ++ toString d.length ++ " characters)"⟩]
      else if d.length > 160 then
        [⟨"long_meta_description", "low",
          "Meta description is too long (" ++ toString d.length ++ " characters)"⟩]
      else [] := by
  unfold metaDescriptionIssues
  rw [h]

theorem countIssues_metaBlock_other (s : Soup) (ty : String)
    (h1 : ty ≠ "missing_meta_description") (h2 : ty ≠ "short_meta_description")
    (h3 : ty ≠ "long_meta_description") :
    countIssues (metaDescriptionIssues s) ty = 0 := by
  rcases hm : getMetaDescription s with - | m
  · rw [metaBlock_of_none s hm]
    simp [countIssues, Ne.symm h1]
  · rw [metaBlock_of_some s m hm]
    split_ifs <;> simp [countIssues, Ne.symm h1, Ne.symm h2, Ne.symm h3]

theorem countIssues_titleBlock_other (s : Soup) (ty : String)
    (h1 : ty ≠ "missing_title") (h2 : ty ≠ "short_title")
    (h3 : ty ≠ "long_title") :
    countIssues (titleIssues s) ty = 0 := by
  rcases hm : getTitle s with - | t
  · rw [titleIssues_of_none s hm]
    simp [countIssues, Ne.symm h1]
  · rw [titleIssues_of_some s t hm]
    split_ifs <;> simp [countIssues, Ne.symm h1, Ne.symm h2, Ne.symm h3]

theorem countIssues_h1Block_other (s : Soup) (ty : String)
    (h1 : ty ≠ "missing_h1") (h2 : ty ≠ "multiple_h1") :
    countIssues (h1Issues s) ty = 0 := by
  unfold h1Issues
  dsimp only
  split_ifs <;> simp [countIssues, Ne.symm h1, Ne.symm h2]

theorem countIssues_imageBlock_other (s : Soup) (ty : String)
    (h1 : ty ≠ "images_missing_alt") :
    countIssues (imageIssues s) ty = 0 := by
  unfold imageIssues
  dsimp only
  split_ifs <;> simp [countIssues, Ne.symm h1]

theorem countIssues_sizeBlock_other (resp : Response) (ty : String)
    (h1 : ty ≠ "large_page_size") :
    countIssues (pageSizeIssues resp) ty = 0 := by
  unfold pageSizeIssues
  split_ifs <;> simp [countIssues, Ne.symm h1]

/-- C6: the boundary behaviour of the title and meta-description length
rules, for any page and response whose extracted title is `t` and whose
extracted meta description is `d`. -/
theorem claim_C6 (s : Soup) (resp : Response) (t d : String)
    (hT : getTitle s = some t) (hM : getMetaDescription s = some d) :
    (t.length = 10 → countIssues (analyzePageIssues s resp) "short_title" = 0) ∧
    (t.length = 9 → countIssues (analyzePageIssues s resp) "short_title" = 1) ∧
    (t.length = 70 → countIssues (analyzePageIssues s resp) "long_title" = 0) ∧
    (t.length = 71 → countIssues (analyzePageIssues s resp) "long_title" = 1) ∧
    (d.length = 50 →
      countIssues (analyzePageIssues s resp) "short_meta_description" = 0) ∧
    (d.length = 49 →
      countIssues (analyzePageIssues s resp) "short_meta_description" = 1) ∧
    (d.length = 160 →
      countIssues (analyzePageIssues s resp) "long_meta_description" = 0) ∧
    (d.length = 161 →
      countIssues (analyzePageIssues s resp) "long_meta_description" = 1) := by
  refine ⟨?_, ?_, ?_, ?_, ?_, ?_, ?_, ?_⟩ <;> intro hlen <;>
    unfold analyzePageIssues <;>
    rw [countIssues_append, countIssues_append, countIssues_append,
      countIssues_append,
      countIssues_h1Block_other s _ (by decide) (by decide),
      countIssues_imageBlock_other s _ (by decide),
      countIssues_sizeBlock_other resp _ (by decide)]
  · rw [countIssues_metaBlock_other s _ (by decide) (by decide) (by decide),
      titleIssues_of_some s t hT,
      if_neg (by intro he; rw [he] at hlen; simp at hlen),
      if_neg (by omega), if_neg (by omega)]
    simp [countIssues]
  · rw [countIssues_metaBlock_other s _ (by decide) (by decide) (by decide),
      titleIssues_of_some s t hT,
      if_neg (by intro he; rw [he] at hlen; simp at hlen),
      if_pos (by omega)]
    simp [countIssues]
  · rw [countIssues_metaBlock_other s _ (by decide) (by decide) (by decide),
      titleIssues_of_some s t hT,
      if_neg (by intro he; rw [he] at hlen; simp at hlen),
      if_neg (by omega), if_neg (by omega)]
    simp [countIssues]
  · rw [countIssues_metaBlock_other s _ (by decide) (by decide) (by decide),
      titleIssues_of_some s t hT,
      if_neg (by intro he; rw [he] at hlen; simp at hlen),
      if_neg (by omega), if_pos (by omega)]
    simp [countIssues]
  · rw [countIssues_titleBlock_other s _ (by decide) (by decide) (by decide),
      metaBlock_of_some s d hM,
      if_neg (by intro he; rw [he] at hlen; simp at hlen),
      if_neg (by omega), if_neg (by omega)]
    simp [countIssues]
  · rw [countIssues_titleBlock_other s _ (by decide) (by decide) (by decide),
      metaBlock_of_some s d hM,
      if_neg (by intro he; rw [he] at hlen; simp at hlen),
      if_pos (by omega)]
    simp [countIssues]
  · rw [countIssues_titleBlock_other s _ (by decide) (by decide) (by decide),
      metaBlock_of_some s d hM,
      if_neg (by intro he; rw [he] at hlen; simp at hlen),
      if_neg (by omega), if_neg (by omega)]
    simp [countIssues]
  · rw [countIssues_titleBlock_other s _ (by decide) (by decide) (by decide),
      metaBlock_of_some s d hM,
      if_neg (by intro he; rw [he] at hlen; simp at hlen),
      if_neg (by omega), if_pos (by omega)]
    simp [countIssues]

theorem claim_C6_witness :
    countIssues (analyzePageIssues
      (soupTitleMeta "islander9" "meta-description-padding-to-forty-nine-chars-full")
      (respFor (soupTitleMeta "islander9" "meta-description-padding-to-forty-nine-chars-full")))
      "short_title" = 1 ∧
    countIssues (analyzePageIssues
      (soupTitleMeta "islander9" "meta-description-padding-to-forty-nine-chars-full")
      (respFor (soupTitleMeta "islander9" "meta-description-padding-to-forty-nine-chars-full")))
      "short_meta_description" = 1 :=
  ⟨(claim_C6 (soupTitleMeta "islander9" "meta-description-padding-to-forty-nine-chars-full")
      (respFor (soupTitleMeta "islander9" "meta-description-padding-to-forty-nine-chars-full"))
      "islander9" "meta-description-padding-to-forty-nine-chars-full"
      (by decide) (by decide)).2.1 (by decide),
   (claim_C6 (soupTitleMeta "islander9" "meta-description-padding-to-forty-nine-chars-full")
      (respFor (soupTitleMeta "islander9" "meta-description-padding-to-forty-nine-chars-full"))
      "islander9" "meta-description-padding-to-forty-nine-chars-full"
      (by decide) (by decide)).2.2.2.2.2.1 (by decide)⟩

theorem mem_titleIssues_type (s : Soup) (i : Issue) (h : i ∈ titleIssues s) :
    i.type = "missing_title" ∨ i.type = "short_title" ∨ i.type = "long_title" := by
  rcases hm : getTitle s with - | t
  · rw [titleIssues_of_none s hm] at h
    simp only [List.mem_singleton] at h
    subst h
    simp
  · rw [titleIssues_of_some s t hm] at h
    split_ifs at h <;> simp only [List.mem_singleton, List.not_mem_nil] at h <;>
      first
        | exact absurd h (by simp)
        | (subst h; simp)

theorem mem_metaBlock_type (s : Soup) (i : Issue)
    (h : i ∈ metaDescriptionIssues s) :
    i.type = "missing_meta_description" ∨ i.type = "short_meta_description" ∨
      i.type = "long_meta_description" := by
  rcases hm : getMetaDescription s with - | d
  · rw [metaBlock_of_none s hm] at h
    simp only [List.mem_singleton] at h
    subst h
    simp
  · rw [metaBlock_of_some s d hm] at h
    split_ifs at h <;> simp only [List.mem_singleton, List.not_mem_nil] at h <;>
      first
        | exact absurd h (by simp)
        | (subst h; simp)

theorem mem_h1Block_type (s : Soup) (i : Issue) (h : i ∈ h1Issues s) :
    i.type = "missing_h1" ∨ i.type = "multiple_h1" := by
  unfold h1Issues at h
  dsimp only at h
  split_ifs at h <;> simp only [List.mem_singleton, List.not_mem_nil] at h <;>
    first
      | exact absurd h (by simp)
      | (subst h; simp)

theorem mem_imageBlock_type (s : Soup) (i : Issue) (h : i ∈ imageIssues s) :
    i.type = "images_missing_alt" := by
  unfold imageIssues at h
  dsimp only at h
  split_ifs at h <;> simp only [List.mem_singleton, List.not_mem_nil] at h
  · subst h
    rfl

theorem mem_sizeBlock (resp : Response) (i : Issue) (h : i ∈ pageSizeIssues resp) :
    i.type = "large_page_size" ∧ i.severity = "medium" := by
  unfold pageSizeIssues at h
  split_ifs at h <;> simp only [List.mem_singleton, List.not_mem_nil] at h
  · subst h
    exact ⟨rfl, rfl⟩

/-- C8 (amended): the `large_page_size` rule fires on the decoded text
length `len(response.text)`, not on the raw byte size; when it fires it
contributes exactly one issue, with severity `medium`. -/
theorem claim_C8 (s : Soup) (resp : Response) :
    countIssues (analyzePageIssues s resp) "large_page_size" =
      (if resp.textLen > 1024 * 1024 then 1 else 0) ∧
    (∀ i ∈ analyzePageIssues s resp,
      i.type = "large_page_size" → i.severity = "medium") := by
  constructor
  · unfold analyzePageIssues
    rw [countIssues_append, countIssues_append, countIssues_append,
      countIssues_append,
      countIssues_titleBlock_other s _ (by decide) (by decide) (by decide),
      countIssues_metaBlock_other s _ (by decide) (by decide) (by decide),
      countIssues_h1Block_other s _ (by decide) (by decide),
      countIssues_imageBlock_other s _ (by decide)]
    unfold pageSizeIssues
    split_ifs <;> simp [countIssues]
  · intro i hi hty
    unfold analyzePageIssues at hi
    simp only [List.mem_append] at hi
    rcases hi with ((((h | h) | h) | h) | h)
    · rcases mem_titleIssues_type s i h with h' | h' | h' <;> rw [h'] at hty <;>
        exact absurd hty (by decide)
    · rcases mem_metaBlock_type s i h with h' | h' | h' <;> rw [h'] at hty <;>
        exact absurd hty (by decide)
    · rcases mem_h1Block_type s i h with h' | h' <;> rw [h'] at hty <;>
        exact absurd hty (by decide)
    · rw [mem_imageBlock_type s i h] at hty
      exact absurd hty (by decide)
    · exact (mem_sizeBlock resp i h).2

theorem claim_C8_counterexample :
    1024 * 1024 < respBigRaw.contentLen ∧
    countIssues (analyzePageIssues emptySoup respBigRaw) "large_page_size" = 0 := by
  constructor
  · decide
  · decide

theorem countRecs_append (a b : List Recommendation) (ty : String) :
    countRecs (a ++ b) ty = countRecs a ty + countRecs b ty := by
  simp [countRecs, List.filter_append]

theorem countRecs_ite (c : Prop) [Decidable c] (r : Recommendation) (ty : String) :
    countRecs (if c then [r] else []) ty =
      if c then (if r.type = ty then 1 else 0) else 0 := by
  by_cases h : c
  · rw [if_pos h, if_pos h]
    by_cases h2 : r.type = ty
    · rw [if_pos h2]
      simp [countRecs, h2]
    · rw [if_neg h2]
      simp [countRecs, h2]
  · rw [if_neg h, if_neg h]
    simp [countRecs]

theorem map_type_ite (c : Prop) [Decidable c] (r : Recommendation) :
    List.Sublist ((if c then [r] else []).map Recommendation.type) [r.type] := by
  split_ifs <;> simp

/-- C9: the recommendation list never holds two entries of one category;
each issue-triggered category appears exactly once iff a matching issue
exists anywhere in the global issue list (and similarly for the
broken-link and page-speed categories); the audit's recommendation list
is exactly this function of its issue list; two `missing_title` issues
from different pages still yield a single `title_optimization` entry. -/
theorem claim_C9 (issues : List GlobalIssue) (brokenLinks : List BrokenLink)
    (avg : ℚ) :
    ((generateRecommendations issues brokenLinks avg).map
      Recommendation.type).Nodup ∧
    countRecs (generateRecommendations issues brokenLinks avg)
        "title_optimization" =
      (if issues.any fun i =>
          ["missing_title", "short_title", "long_title"].contains i.type
        then 1 else 0) ∧
    countRecs (generateRecommendations issues brokenLinks avg)
        "meta_description_optimization" =
      (if issues.any fun i =>
          ["missing_meta_description", "short_meta_description",
            "long_meta_description"].contains i.type
        then 1 else 0) ∧
    countRecs (generateRecommendations issues brokenLinks avg)
        "heading_structure" =
      (if issues.any fun i => ["missing_h1", "multiple_h1"].contains i.type
        then 1 else 0) ∧
    countRecs (generateRecommendations issues brokenLinks avg)
        "image_optimization" =
      (if issues.any fun i => i.type == "images_missing_alt" then 1 else 0) ∧
    countRecs (generateRecommendations issues brokenLinks avg)
        "fix_broken_links" = (if brokenLinks ≠ [] then 1 else 0) ∧
    countRecs (generateRecommendations issues brokenLinks avg)
        "improve_page_speed" = (if avg > 3 then 1 else 0) ∧
    (∀ env cfg domain maxPages,
      (auditSite env cfg domain maxPages).recommendations =
        generateRecommendations (auditSite env cfg domain maxPages).issues
          (auditSite env cfg domain maxPages).brokenLinks
          (auditSite env cfg domain maxPages).summary.averagePageSpeed) ∧
    countRecs (generateRecommendations
        [⟨"missing_title", "high", "Page is missing a title tag", "https://example.com/a"⟩,
         ⟨"missing_title", "high", "Page is missing a title tag", "https://example.com/b"⟩]
        [] 0) "title_optimization" = 1 := by
  refine ⟨?_, ?_, ?_, ?_, ?_, ?_, ?_, ?_, ?_⟩
  · have hsub : List.Sublist
        ((generateRecommendations issues brokenLinks avg).map Recommendation.type)
        (["title_optimization"] ++ ["meta_description_optimization"] ++
          ["heading_structure"] ++ ["image_optimization"] ++
          ["fix_broken_links"] ++ ["improve_page_speed"]) := by
      unfold generateRecommendations
      simp only [List.map_append]
      exact List.Sublist.append (List.Sublist.append (List.Sublist.append
        (List.Sublist.append (List.Sublist.append (map_type_ite _ _)
          (map_type_ite _ _)) (map_type_ite _ _)) (map_type_ite _ _))
        (map_type_ite _ _)) (map_type_ite _ _)
    exact List.Nodup.sublist hsub (by simp)
  · unfold generateRecommendations
    rw [countRecs_append, countRecs_append, countRecs_append, countRecs_append,
      countRecs_append, countRecs_ite, countRecs_ite, countRecs_ite,
      countRecs_ite, countRecs_ite, countRecs_ite]
    simp
  · unfold generateRecommendations
    rw [countRecs_append, countRecs_append, countRecs_append, countRecs_append,
      countRecs_append, countRecs_ite, countRecs_ite, countRecs_ite,
      countRecs_ite, countRecs_ite, countRecs_ite]
    simp
  · unfold generateRecommendations
    rw [countRecs_append, countRecs_append, countRecs_append, countRecs_append,
      countRecs_append, countRecs_ite, countRecs_ite, countRecs_ite,
      countRecs_ite, countRecs_ite, countRecs_ite]
    simp
  · unfold generateRecommendations
    rw [countRecs_append, countRecs_append, countRecs_append, countRecs_append,
      countRecs_append, countRecs_ite, countRecs_ite, countRecs_ite,
      countRecs_ite, countRecs_ite, countRecs_ite]
    simp
  · unfold generateRecommendations
    rw [countRecs_append, countRecs_append, countRecs_append, countRecs_append,
      countRecs_append, countRecs_ite, countRecs_ite, countRecs_ite,
      countRecs_ite, countRecs_ite, countRecs_ite]
    simp
  · unfold generateRecommendations
    rw [countRecs_append, countRecs_append, countRecs_append, countRecs_append,
      countRecs_append, countRecs_ite, countRecs_ite, countRecs_ite,
      countRecs_ite, countRecs_ite, countRecs_ite]
    simp
  · intro env cfg domain maxPages
    rfl
  · unfold generateRecommendations
    rw [countRecs_append, countRecs_append, countRecs_append, countRecs_append,
      countRecs_append, countRecs_ite, countRecs_ite, countRecs_ite,
      countRecs_ite, countRecs_ite, countRecs_ite]
    simp

/-- C1 (amended): when the clamped budget `min(max_pages, ceiling)` is
nonnegative, every reachable crawl state satisfies
`|visited| <= budget`, the returned `pages_analyzed` is exactly
`|visited|` of the final state and is `<= budget`, the final state has an
empty frontier or exactly `budget` visited URLs, and the loop is
stationary exactly on such states. -/
theorem claim_C1 (env : Env) (cfg : Config) (domain : String) (maxPages : Int)
    (hb : 0 ≤ clampedBudget cfg maxPages) :
    (∀ st, Reaches env cfg (clampedBudget cfg maxPages)
        (initState (normalizeDomain domain)) st →
      (st.visited.length : Int) ≤ clampedBudget cfg maxPages) ∧
    (auditSite env cfg domain maxPages).pagesAnalyzed =
      (crawlLoop env cfg (clampedBudget cfg maxPages)
        (initState (normalizeDomain domain))).visited.length ∧
    ((auditSite env cfg domain maxPages).pagesAnalyzed : Int) ≤
      clampedBudget cfg maxPages ∧
    ((crawlLoop env cfg (clampedBudget cfg maxPages)
        (initState (normalizeDomain domain))).frontier = [] ∨
      ((crawlLoop env cfg (clampedBudget cfg maxPages)
          (initState (normalizeDomain domain))).visited.length : Int) =
        clampedBudget cfg maxPages) ∧
    (∀ st, st.frontier = [] ∨
        (st.visited.length : Int) = clampedBudget cfg maxPages →
      crawlLoop env cfg (clampedBudget cfg maxPages) st = st) := by
  refine ⟨?_, rfl, ?_, ?_, ?_⟩
  · exact fun st h => budget_reaches env cfg _ hb _ st h
  · show ((crawlLoop env cfg (clampedBudget cfg maxPages)
        (initState (normalizeDomain domain))).visited.length : Int) ≤ _
    exact budget_reaches env cfg _ hb _ _ (crawlLoop_reaches env cfg _ _)
  · rcases crawlLoop_stops env cfg (clampedBudget cfg maxPages)
        (initState (normalizeDomain domain)) with h | h
    · exact Or.inl h
    · right
      have hle := budget_reaches env cfg _ hb _ _
        (crawlLoop_reaches env cfg (clampedBudget cfg maxPages)
          (initState (normalizeDomain domain)))
      omega
  · exact fun st h => crawlLoop_fixed env cfg _ st h

theorem claim_C1_witness :
    ((auditSite env0 cfg0 "https://example.com" 5).pagesAnalyzed : Int) ≤
      clampedBudget cfg0 5 :=
  (claim_C1 env0 cfg0 "https://example.com" 5 (by decide)).2.2.1

/-- With a negative caller-supplied budget the clamped budget is
negative, yet `pages_analyzed` is `0`, so the claimed bound
`pages_analyzed <= min(max_pages, ceiling)` fails. -/
theorem claim_C1_counterexample :
    ¬ (((auditSite env0 cfg0 "example.com" (-1)).pagesAnalyzed : Int) ≤
        clampedBudget cfg0 (-1)) := by
  have hn : normalizeDomain "example.com" = "https://example.com" := by
    unfold normalizeDomain
    rw [if_neg (by decide)]
    decide
  have hloop : crawlLoop env0 cfg0 (clampedBudget cfg0 (-1))
      (initState "https://example.com") = initState "https://example.com" := by
    rw [crawlLoop_frontier_cons env0 cfg0 _ (initState "https://example.com")
      "https://example.com" [] rfl]
    rw [if_neg (by decide)]
  have hp : (auditSite env0 cfg0 "example.com" (-1)).pagesAnalyzed = 0 := by
    simp only [auditSite, hn, hloop]
    rfl
  rw [hp]
  decide

/-- C2: in every reachable crawl state, `visited` and the frontier are
disjoint; the link-offering step only ever inserts a URL that is neither
in `visited` nor already in the frontier (and that passes
`_should_crawl`). -/
theorem claim_C2 (env : Env) (cfg : Config) (domain : String) (maxPages : Int) :
    (∀ st, Reaches env cfg (clampedBudget cfg maxPages)
        (initState (normalizeDomain domain)) st →
      ∀ u ∈ st.visited, u ∉ st.frontier) ∧
    (∀ visited fr links u, u ∈ offerLinks env cfg visited fr links →
      u ∉ fr → u ∉ visited ∧ shouldCrawl env cfg u = true) := by
  constructor
  · intro st h u hu
    exact (stateInv_reaches env cfg _ _ st h).2.2 u hu
  · intro visited fr links u hmem hnf
    rcases mem_offerLinks env cfg visited links fr u hmem with h | ⟨-, hnv, hc⟩
    · exact absurd h hnf
    · exact ⟨hnv, hc⟩

theorem claim_C2_witness :
    "https://example.com" ∉ (processUrl env0 cfg0 (initState "https://example.com")
        "https://example.com" []).frontier ∧
    ("https://example.com/a" ∉ ([] : List String) ∧
      shouldCrawl env0 cfg0 "https://example.com/a" = true) := by
  constructor
  · have h := (claim_C2 env0 cfg0 "https://example.com" 5).1
    rw [show normalizeDomain "https://example.com" = "https://example.com" from
      by decide] at h
    exact h _ (Relation.ReflTransGen.single
        (CrawlStep.visit (initState "https://example.com") "https://example.com" []
          rfl (by decide) (by decide)))
      "https://example.com" (by decide)
  · exact (claim_C2 env0 cfg0 "https://example.com" 5).2 [] []
      ["https://example.com/a"] "https://example.com/a" (by decide) (by decide)

/-- C3: every URL ever placed into `visited` and every URL in any
collected page's `links` list has exactly the start URL's netloc. -/
theorem claim_C3 (env : Env) (cfg : Config) (domain : String) (maxPages : Int) :
    ∀ st, Reaches env cfg (clampedBudget cfg maxPages)
        (initState (normalizeDomain domain)) st →
      (∀ u ∈ st.visited, env.netloc u = env.netloc (normalizeDomain domain)) ∧
      (∀ pd ∈ st.allPages, ∀ u ∈ pd.links,
        env.netloc u = env.netloc (normalizeDomain domain)) := by
  intro st h
  obtain ⟨h1, -, h3⟩ := hostInv_reaches env cfg _ _ st h
  exact ⟨h1, h3⟩

theorem claim_C3_witness :
    envLink.netloc "https://example.com/about" =
      envLink.netloc "https://example.com" := by
  have h := claim_C3 envLink cfg0 "https://example.com" 5
  rw [show normalizeDomain "https://example.com" = "https://example.com" from
    by decide] at h
  exact (h _ (Relation.ReflTransGen.single
      (CrawlStep.visit (initState "https://example.com") "https://example.com" []
        rfl (by decide) (by decide)))).2
    (buildPageData envLink "https://example.com" respLink 1) (by decide)
    "https://example.com/about" (by decide)

end SiteAudit
